import Mathlib

/-!
Verification of the job-state polling and terminal-state reconciliation
protocol of the Dataflow jobs controller (`_DataflowJobsController` in
`airflow/providers/google/cloud/hooks/dataflow.py`).

The implementation module itself is not part of the provided sources; only
its unit test suite is
(`src/providers/google/tests/unit/google/cloud/hooks/test_dataflow.py`).
The definitions below are therefore modelled from the specification's
description of the JobStatusReconciler (spec sections 3, 4.1, 7 and 8),
with every point the spec leaves ambiguous pinned by the behaviour the
unit tests in the provided sources assert.
-/

namespace Dataflow

/-- Job state constant, as the string used on the wire. -/
def JOB_STATE_DONE : String := "JOB_STATE_DONE"

/-- Job state constant. -/
def JOB_STATE_UNKNOWN : String := "JOB_STATE_UNKNOWN"

/-- Job state constant. -/
def JOB_STATE_STOPPED : String := "JOB_STATE_STOPPED"

/-- Job state constant. -/
def JOB_STATE_RUNNING : String := "JOB_STATE_RUNNING"

/-- Job state constant. -/
def JOB_STATE_FAILED : String := "JOB_STATE_FAILED"

/-- Job state constant. -/
def JOB_STATE_CANCELLED : String := "JOB_STATE_CANCELLED"

/-- Job state constant. -/
def JOB_STATE_UPDATED : String := "JOB_STATE_UPDATED"

/-- Job state constant. -/
def JOB_STATE_DRAINING : String := "JOB_STATE_DRAINING"

/-- Job state constant. -/
def JOB_STATE_DRAINED : String := "JOB_STATE_DRAINED"

/-- Job state constant. -/
def JOB_STATE_PENDING : String := "JOB_STATE_PENDING"

/-- Job state constant. -/
def JOB_STATE_CANCELLING : String := "JOB_STATE_CANCELLING"

/-- Job state constant. -/
def JOB_STATE_QUEUED : String := "JOB_STATE_QUEUED"

/-- Job type constant. -/
def JOB_TYPE_BATCH : String := "JOB_TYPE_BATCH"

/-- Job type constant. -/
def JOB_TYPE_STREAMING : String := "JOB_TYPE_STREAMING"

/-- Modelled from the spec: terminal-failure end states of a job
(spec section 3: FAILED and unexpectedly reached CANCELLED). -/
def FAILED_END_STATES : List String := [JOB_STATE_FAILED, JOB_STATE_CANCELLED]

/-- Modelled from the spec: terminal-success end states of a job
(spec section 3: DONE, UPDATED, DRAINED when expected). -/
def SUCCEEDED_END_STATES : List String :=
  [JOB_STATE_DONE, JOB_STATE_UPDATED, JOB_STATE_DRAINED]

/-- Modelled from the spec: the set of terminal states
(spec section 3 and the glossary: states after which no further
transition is expected). -/
def TERMINAL_STATES : List String := SUCCEEDED_END_STATES ++ FAILED_END_STATES

/-- Modelled from the spec: the non-terminal / awaiting states
(spec section 3: QUEUED, PENDING, CANCELLING, DRAINING, plus RUNNING and
STOPPED which the reconciler also keeps waiting on, as the unit tests for
`job_reached_terminal_state` require). -/
def AWAITING_STATES : List String :=
  [JOB_STATE_RUNNING, JOB_STATE_PENDING, JOB_STATE_QUEUED,
   JOB_STATE_CANCELLING, JOB_STATE_DRAINING, JOB_STATE_STOPPED]

/-- A job record as observed from the job-tracking API (spec section 3
Data Model): an `id`, a human-readable `name`, an optional `type`
(BATCH, STREAMING, or absent), and the reported `currentState`. -/
structure Job where
  id : String
  name : String
  type : Option String
  currentState : String
deriving Repr, DecidableEq

/-- Error message for a job observed in a terminal state other than the
expected one (spec section 7: TerminalFailure names the job and state). -/
def unexpectedTerminalMsg (jobName current expected : String) : String :=
  "Google Cloud Dataflow job " ++ jobName ++
    " is in an unexpected terminal state: " ++ current ++
    ", expected terminal state: " ++ expected

/-- Error message for a configured expected terminal state that is not a
terminal state at all (spec section 7: InvalidExpectedState). -/
def invalidExpectedMsg (expected : String) : String :=
  "Google Cloud Dataflow job's expected terminal state " ++ expected ++
    " is invalid. The value should be one of the terminal states or JOB_STATE_RUNNING"

/-- Error message for an expected terminal state incompatible with the
job's type (spec section 3 invariant: batch jobs can never legitimately
report DRAINED; streaming jobs can never report DONE). -/
def invalidForTypeMsg (expected typeWord : String) : String :=
  "Google Cloud Dataflow job's expected terminal state cannot be " ++
    expected ++ " while it is a " ++ typeWord ++ " job"

/-- Modelled from the spec: the pure classification function
`job_reached_terminal_state` of the JobStatusReconciler (spec section
4.1); the implementation module is absent from the provided sources.
Inputs: the session's configured expected terminal state, one job record,
the optional wait-until-finished override, and an optional per-call custom
expected terminal state.  The expected terminal state defaults by job
type (RUNNING for streaming, DONE otherwise); an expected state that is
not terminal, or is DONE for a streaming job, or DRAINED for a batch job,
fails immediately at classification time.  A job in the expected state is
terminal-success, except that reaching RUNNING counts only when the
override is not `true`; a job in an awaiting state is terminal-success
exactly when the override is `false` (the override matrix asserted by the
unit tests `test_check_dataflow_job_state_wait_until_finished`); any
other state is an unexpected terminal state and fails. -/
def job_reached_terminal_state (expected_terminal_state : Option String)
    (job : Job) (wait_until_finished : Option Bool)
    (custom_terminal_state : Option String) : Except String Bool :=
  let current_state := job.currentState
  let is_streaming : Bool := job.type == some JOB_TYPE_STREAMING
  let expected : String :=
    match custom_terminal_state, expected_terminal_state with
    | some s, _ => s
    | none, some s => s
    | none, none => if is_streaming then JOB_STATE_RUNNING else JOB_STATE_DONE
  if !(TERMINAL_STATES.contains expected || expected == JOB_STATE_RUNNING) then
    .error (invalidExpectedMsg expected)
  else if is_streaming && expected == JOB_STATE_DONE then
    .error (invalidForTypeMsg JOB_STATE_DONE "streaming")
  else if !is_streaming && expected == JOB_STATE_DRAINED then
    .error (invalidForTypeMsg JOB_STATE_DRAINED "batch")
  else if current_state == expected then
    .ok (if expected == JOB_STATE_RUNNING then wait_until_finished != some true else true)
  else if AWAITING_STATES.contains current_state then
    .ok (wait_until_finished == some false)
  else
    .error (unexpectedTerminalMsg job.name current_state expected)

/-- Modelled from the spec: the ReconcilerSession configuration of the
jobs controller (spec section 3): a job name used as a starts-with filter
in multi-job mode, an optional single job id, the multi-job flag, the
drain-instead-of-kill policy flag, the poll interval in seconds, the
optional cancel timeout in seconds, the optional wait-until-finished
override, and the optional explicit expected terminal state. -/
structure Controller where
  name : Option String
  job_id : Option String
  multiple_jobs : Bool
  drain_pipeline : Bool
  poll_sleep : Nat
  cancel_timeout : Option Nat
  wait_until_finished : Option Bool
  expected_terminal_state : Option String
deriving Repr

/-- Modelled from the spec: the multi-job name filter (spec section 4.1,
`get_jobs`): a job is retained when its name starts with the configured
name, lower-cased. -/
def nameMatches (nm : String) (j : Job) : Bool :=
  (nm.data.map Char.toLower).isPrefixOf j.name.data

/-- Modelled from the spec: one refresh of the tracked job set
(spec section 4.1, `get_jobs`): in multi-job mode the paginated list
result is filtered by `nameMatches`; in single-job mode the by-id lookup
result is taken as is.  A poll round is represented by the raw job list
the API returns. -/
def currentJobs (c : Controller) (round : List Job) : List Job :=
  if c.multiple_jobs then
    match c.name with
    | some nm => round.filter (fun j => nameMatches nm j)
    | none => round
  else round

/-- Modelled from the spec: the per-round success check of
`wait_for_done` (spec section 4.1): every tracked job is classified via
`job_reached_terminal_state`; a terminal-failure classification raises
and aborts the whole wait, a non-terminal job ends the round with
"keep waiting", and the round succeeds when every job is
terminal-success.  The fold stops at the first non-terminal job in the
round's order. -/
def allReachedTerminal (exp : Option String) (wuf : Option Bool) :
    List Job → Except String Bool
  | [] => .ok true
  | j :: rest =>
    match job_reached_terminal_state exp j wuf none with
    | .error e => .error e
    | .ok true => allReachedTerminal exp wuf rest
    | .ok false => .ok false

/-- Modelled from the spec: the polling loop of `wait_for_done`
(spec section 4.1), the implementation module being absent from the
provided sources.  The external API is represented by the schedule of
poll rounds; the function returns the number of rounds polled on success
(the loop sleeps `poll_sleep` seconds between consecutive rounds).  An
empty tracked-job set ends the wait as an idempotent no-op success; a
terminal-failure classification propagates as the error.  A schedule
that runs out before the wait decides is a model artifact reported as a
distinguished error. -/
def wait_for_done_go (c : Controller) :
    List (List Job) → Nat → Except String Nat
  | [], _ => .error "model: poll schedule exhausted"
  | r :: rest, polled =>
    let jobs := currentJobs c r
    if jobs.isEmpty then .ok (polled + 1)
    else
      match allReachedTerminal c.expected_terminal_state c.wait_until_finished jobs with
      | .error e => .error e
      | .ok true => .ok (polled + 1)
      | .ok false => wait_for_done_go c rest (polled + 1)

/-- Modelled from the spec: `wait_for_done` over a schedule of poll
rounds; returns the number of rounds consumed when the wait succeeds. -/
def wait_for_done (c : Controller) (rounds : List (List Job)) : Except String Nat :=
  wait_for_done_go c rounds 0

/-- Execution trace of one `cancel()` call: the update-state API calls
issued (job id paired with the requested state in the body), the sleeps
performed while waiting for the cancelled state, the number of job polls
issued, and the final outcome. -/
structure CancelTrace where
  updates : List (String × String)
  sleeps : List Nat
  polls_used : Nat
  outcome : Except String Unit
deriving Repr

/-- Modelled from the spec: the timeout error of `cancel()`
(spec section 7, CancelTimeout: a timeout error naming the job id). -/
def cancelTimeoutMsg (t : Nat) (jobId : String) : String :=
  "Canceling jobs failed due to timeout (" ++ toString t ++ "s): " ++ jobId

/-- Modelled from the spec: the requested terminal state of an
update-state call issued by `cancel()` (spec section 4.1): DRAINED when
the drain-instead-of-kill policy is set and the job is streaming,
CANCELLED otherwise. -/
def requestedStateFor (c : Controller) (j : Job) : String :=
  if c.drain_pipeline && (j.type == some JOB_TYPE_STREAMING) then
    JOB_STATE_DRAINED
  else
    JOB_STATE_CANCELLED

/-- Modelled from the spec: the post-update polling loop of `cancel()`
(spec section 4.1): poll until the job reports CANCELLED, failing on a
terminal-failure end state, sleeping `poll_sleep` seconds between rounds;
the cancel timeout is a wall-clock deadline, modelled as firing during
the sleep in which the cumulative slept time reaches the deadline.
Returns the sleeps performed, the polls issued and the outcome. -/
def cancelWaitGo (c : Controller) (t : Nat) (jobId : String) :
    List Job → Nat → List Nat → Nat → (List Nat × Nat × Except String Unit)
  | [], _, sleeps, polls => (sleeps, polls, .error "model: poll schedule exhausted")
  | j :: rest, elapsed, sleeps, polls =>
    if j.currentState == JOB_STATE_CANCELLED then
      (sleeps, polls + 1, .ok ())
    else if FAILED_END_STATES.contains j.currentState then
      (sleeps, polls + 1,
       .error ("Jobs failed: state " ++ j.currentState ++ " for job " ++ j.id))
    else
      let elapsed2 := elapsed + c.poll_sleep
      let sleeps2 := sleeps ++ [c.poll_sleep]
      if t ≤ elapsed2 then
        (sleeps2, polls + 1, .error (cancelTimeoutMsg t jobId))
      else
        cancelWaitGo c t jobId rest elapsed2 sleeps2 (polls + 1)

/-- Modelled from the spec: `cancel()` of the jobs controller
(spec section 4.1), the implementation module being absent from the
provided sources.  The external API is represented by the stream of job
records successive by-id polls return.  The first poll fetches the job;
a job already in a terminal state makes the whole call a no-op (no
update-state call is issued).  Otherwise one update-state call is issued
requesting `requestedStateFor`; then, only when a cancel timeout is
configured, the controller polls until the job reports CANCELLED, under
the timeout deadline.  With no cancel timeout the call returns right
after the update, without further polling. -/
def cancel (c : Controller) : List Job → CancelTrace
  | [] => ⟨[], [], 0, .error "model: poll schedule exhausted"⟩
  | j :: rest =>
    if TERMINAL_STATES.contains j.currentState then
      ⟨[], [], 1, .ok ()⟩
    else
      let upd := [(j.id, requestedStateFor c j)]
      match c.cancel_timeout with
      | none => ⟨upd, [], 1, .ok ()⟩
      | some t =>
        let r := cancelWaitGo c t j.id rest 0 [] 0
        ⟨upd, r.1, 1 + r.2.1, r.2.2⟩

end Dataflow

namespace Dataflow

/-- Multi-job controller as built by the wait-related unit tests. -/
def multiCtl : Controller :=
  ⟨some "name-", none, true, false, 0, none, none, none⟩

/-- Single-job controller for the plain cancel scenario: id
`"test-job-id"`, `poll_sleep = 4`, no cancel timeout. -/
def cancelCtlNoTimeout : Controller :=
  ⟨some "test-dataflow-pipeline", some "test-job-id", false, false, 4, none, none, none⟩

/-- Single-job controller for the cancel-timeout scenario: id
`"test-job-id"`, `poll_sleep = 4`, `cancel_timeout = 10`. -/
def cancelCtlTimeout : Controller :=
  ⟨some "test-dataflow-pipeline", some "test-job-id", false, false, 4, some 10, none, none⟩

/-- The polled job of the cancel scenarios, in a given state. -/
def cancelJob (st : String) : Job :=
  ⟨"test-job-id", "test-dataflow-pipeline", none, st⟩

/-- Controller for the cancel-or-drain scenario: single job id
`"test-job-id"`, no cancel timeout, drain policy as given. -/
def drainCtl (drain : Bool) : Controller :=
  ⟨some "test-dataflow-pipeline", some "test-job-id", false, drain, 10, none, none, none⟩

/-- The DONE job of the multi-job failure scenario. -/
def doneJob : Job := ⟨"id-1", "name-1", some JOB_TYPE_BATCH, JOB_STATE_DONE⟩

/-- The sibling job of the multi-job failure scenario, in a given state. -/
def sibJob (st : String) : Job := ⟨"id-2", "name-2", some JOB_TYPE_BATCH, st⟩

/-- The poll rounds of the QUEUED, PENDING, RUNNING(STREAMING) wait
scenario. -/
def streamingRounds : List (List Job) :=
  [[⟨"id-2", "name-2", none, JOB_STATE_QUEUED⟩],
   [⟨"id-2", "name-2", none, JOB_STATE_PENDING⟩],
   [⟨"id-2", "name-2", some JOB_TYPE_STREAMING, JOB_STATE_RUNNING⟩]]

/-- The poll stream of the plain cancel scenario: three CANCELLING
observations followed by CANCELLED. -/
def cancelPolls : List Job :=
  [cancelJob JOB_STATE_CANCELLING, cancelJob JOB_STATE_CANCELLING,
   cancelJob JOB_STATE_CANCELLING, cancelJob JOB_STATE_CANCELLED]

/-- C1, counterexample: a STREAMING job with currentState RUNNING and the
wait-until-finished override set to `false` is classified `true`, not
`false` as the claim states. -/
theorem C1_streaming_running_override_false_counterexample :
    job_reached_terminal_state none
      ⟨"id-2", "name-2", some JOB_TYPE_STREAMING, JOB_STATE_RUNNING⟩
      (some false) none = .ok true := rfl

/-- C1, amended: for every STREAMING job with currentState RUNNING,
`job_reached_terminal_state` returns true when the override is absent,
false when the override is true, and true when the override is false. -/
theorem C1_streaming_running_override_matrix (i nm : String) :
    job_reached_terminal_state none
      ⟨i, nm, some JOB_TYPE_STREAMING, JOB_STATE_RUNNING⟩ none none = .ok true ∧
    job_reached_terminal_state none
      ⟨i, nm, some JOB_TYPE_STREAMING, JOB_STATE_RUNNING⟩ (some true) none = .ok false ∧
    job_reached_terminal_state none
      ⟨i, nm, some JOB_TYPE_STREAMING, JOB_STATE_RUNNING⟩ (some false) none = .ok true :=
  ⟨rfl, rfl, rfl⟩

/-- C2: in multi-job mode, when one tracked job is DONE and its sibling
is in a terminal-failure state (FAILED, CANCELLED, DRAINED, UPDATED or
UNKNOWN), `wait_for_done` raises within that round with an error citing
the failing job's unexpected terminal state — never polling further and
never returning success, whatever rounds would follow. -/
theorem C2_multi_job_sibling_failure_aborts (st : String)
    (h : st ∈ [JOB_STATE_FAILED, JOB_STATE_CANCELLED, JOB_STATE_DRAINED,
               JOB_STATE_UPDATED, JOB_STATE_UNKNOWN])
    (extra : List (List Job)) :
    wait_for_done multiCtl ([[doneJob, sibJob st]] ++ extra) =
      .error (unexpectedTerminalMsg "name-2" st JOB_STATE_DONE) := by
  fin_cases h <;> rfl

/-- C2, witness at the FAILED sibling with no further rounds. -/
theorem C2_multi_job_sibling_failure_aborts_witness :
    wait_for_done multiCtl [[doneJob, sibJob JOB_STATE_FAILED]] =
      .error (unexpectedTerminalMsg "name-2" JOB_STATE_FAILED JOB_STATE_DONE) :=
  C2_multi_job_sibling_failure_aborts JOB_STATE_FAILED (by simp) []

/-- C3: for every job whose currentState is FAILED or UNKNOWN and whose
type is BATCH or STREAMING, `job_reached_terminal_state` (with no
expected terminal state configured) raises, returning the
unexpected-terminal-state error for the type's default expected state. -/
theorem C3_failed_unknown_always_raise (ty : Option String)
    (hty : ty ∈ [some JOB_TYPE_BATCH, some JOB_TYPE_STREAMING])
    (wuf : Option Bool) (st : String)
    (hst : st ∈ [JOB_STATE_FAILED, JOB_STATE_UNKNOWN]) :
    job_reached_terminal_state none ⟨"id-2", "name-2", ty, st⟩ wuf none =
      .error (unexpectedTerminalMsg "name-2" st
        (if ty == some JOB_TYPE_STREAMING then JOB_STATE_RUNNING else JOB_STATE_DONE)) := by
  fin_cases hty <;> fin_cases hst <;> rfl

/-- C3, witness at a BATCH job in FAILED with no override. -/
theorem C3_failed_unknown_always_raise_witness :
    job_reached_terminal_state none
      ⟨"id-2", "name-2", some JOB_TYPE_BATCH, JOB_STATE_FAILED⟩ none none =
      .error (unexpectedTerminalMsg "name-2" JOB_STATE_FAILED
        (if (some JOB_TYPE_BATCH : Option String) == some JOB_TYPE_STREAMING
         then JOB_STATE_RUNNING else JOB_STATE_DONE)) :=
  C3_failed_unknown_always_raise (some JOB_TYPE_BATCH) (by simp) none
    JOB_STATE_FAILED (by simp)

/-- C4: invalid state/type pairings fail at classification time and never
produce a true result, for every override and every current state: a
STREAMING job observed in DONE raises, a BATCH job observed in DRAINED
raises, expecting DONE of a STREAMING job raises whatever the current
state, and expecting DRAINED of a BATCH job raises whatever the current
state. -/
theorem C4_invalid_state_type_pairings_raise (i nm : String)
    (wuf : Option Bool) (st : String) :
    job_reached_terminal_state none
      ⟨i, nm, some JOB_TYPE_STREAMING, JOB_STATE_DONE⟩ wuf none =
      .error (unexpectedTerminalMsg nm JOB_STATE_DONE JOB_STATE_RUNNING) ∧
    job_reached_terminal_state none
      ⟨i, nm, some JOB_TYPE_BATCH, JOB_STATE_DRAINED⟩ wuf none =
      .error (unexpectedTerminalMsg nm JOB_STATE_DRAINED JOB_STATE_DONE) ∧
    job_reached_terminal_state none
      ⟨i, nm, some JOB_TYPE_STREAMING, st⟩ wuf (some JOB_STATE_DONE) =
      .error (invalidForTypeMsg JOB_STATE_DONE "streaming") ∧
    job_reached_terminal_state none
      ⟨i, nm, some JOB_TYPE_BATCH, st⟩ wuf (some JOB_STATE_DRAINED) =
      .error (invalidForTypeMsg JOB_STATE_DRAINED "batch") :=
  ⟨rfl, rfl, rfl, rfl⟩

/-- C5, counterexample: in the scenario with single job id
`"test-job-id"`, `poll_sleep = 4`, `cancel_timeout = none` and polls
CANCELLING, CANCELLING, CANCELLING, CANCELLED, `cancel()` performs
exactly one poll, not four. -/
theorem C5_cancel_no_timeout_polls_once_counterexample :
    (cancel cancelCtlNoTimeout cancelPolls).polls_used = 1 ∧
    (cancel cancelCtlNoTimeout cancelPolls).polls_used ≠ 4 :=
  ⟨rfl, by decide⟩

/-- C5, amended: in the scenario with single job id `"test-job-id"`,
`poll_sleep = 4`, `cancel_timeout = none` and polls CANCELLING,
CANCELLING, CANCELLING, CANCELLED, `cancel()` issues exactly one
update-state API call with a body requesting state CANCELLED and returns
normally after the first poll; with no cancel timeout configured it does
not poll again after issuing the update. -/
theorem C5_cancel_no_timeout_single_update :
    cancel cancelCtlNoTimeout cancelPolls =
      ⟨[("test-job-id", JOB_STATE_CANCELLED)], [], 1, .ok ()⟩ := rfl

/-- C6: for every job already in a terminal state (DONE, UPDATED,
DRAINED, FAILED or CANCELLED) when `cancel()` is invoked, whatever the
job's type, no update-state API call is issued and the call returns
immediately after the single poll. -/
theorem C6_cancel_terminal_noop (st : String) (hst : st ∈ TERMINAL_STATES)
    (ty : Option String) :
    cancel cancelCtlNoTimeout [⟨"test-job-id", "test-dataflow-pipeline", ty, st⟩] =
      ⟨[], [], 1, .ok ()⟩ := by
  fin_cases hst <;> rfl

/-- C6, witness at a DONE job without type. -/
theorem C6_cancel_terminal_noop_witness :
    cancel cancelCtlNoTimeout
      [⟨"test-job-id", "test-dataflow-pipeline", none, JOB_STATE_DONE⟩] =
      ⟨[], [], 1, .ok ()⟩ :=
  C6_cancel_terminal_noop JOB_STATE_DONE (by simp [TERMINAL_STATES, SUCCEEDED_END_STATES]) none

/-- C7: `cancel()` polling a job stuck in CANCELLING with
`poll_sleep = 4` and `cancel_timeout = 10` sleeps 4 seconds after each of
the three poll rounds that fit in the deadline and then raises the
timeout error naming the job id, whatever observations would follow. -/
theorem C7_cancel_timeout_raises (extra : List Job) :
    cancel cancelCtlTimeout
      ([cancelJob JOB_STATE_CANCELLING, cancelJob JOB_STATE_CANCELLING,
        cancelJob JOB_STATE_CANCELLING, cancelJob JOB_STATE_CANCELLING] ++ extra) =
      ⟨[("test-job-id", JOB_STATE_CANCELLED)], [4, 4, 4], 4,
       .error "Canceling jobs failed due to timeout (10s): test-job-id"⟩ := rfl

/-- C8: for every RUNNING job of type BATCH or STREAMING and every
setting of the drain policy, `cancel()` issues exactly one update-state
call, requesting DRAINED exactly when the drain policy is set and the
job is STREAMING, and CANCELLED in every other combination. -/
theorem C8_cancel_requested_state (drain : Bool) (ty : Option String)
    (hty : ty ∈ [some JOB_TYPE_BATCH, some JOB_TYPE_STREAMING]) :
    cancel (drainCtl drain) [⟨"test-job-id", "test-dataflow-pipeline", ty, JOB_STATE_RUNNING⟩] =
      ⟨[("test-job-id",
         if drain && (ty == some JOB_TYPE_STREAMING)
         then JOB_STATE_DRAINED else JOB_STATE_CANCELLED)], [], 1, .ok ()⟩ := by
  fin_cases hty <;> cases drain <;> rfl

/-- C8, witness at the drain policy with a STREAMING job. -/
theorem C8_cancel_requested_state_witness :
    cancel (drainCtl true)
      [⟨"test-job-id", "test-dataflow-pipeline", some JOB_TYPE_STREAMING, JOB_STATE_RUNNING⟩] =
      ⟨[("test-job-id",
         if true && ((some JOB_TYPE_STREAMING : Option String) == some JOB_TYPE_STREAMING)
         then JOB_STATE_DRAINED else JOB_STATE_CANCELLED)], [], 1, .ok ()⟩ :=
  C8_cancel_requested_state true (some JOB_TYPE_STREAMING) (by simp)

/-- C9: `wait_for_done` over the job observed as QUEUED, then PENDING,
then RUNNING with type STREAMING, with no override given, returns
success at the third round — the one in which RUNNING is observed — and
does not poll any of the rounds that would follow. -/
theorem C9_streaming_wait_stops_at_running (extra : List (List Job)) :
    wait_for_done multiCtl (streamingRounds ++ extra) = .ok 3 := rfl

/-- C10: for every job in the awaiting state PENDING — whatever its type,
or with no type at all — `job_reached_terminal_state` with the
wait-until-finished override set to false returns true. -/
theorem C10_pending_override_false_terminal (ty : Option String) :
    job_reached_terminal_state none ⟨"id-2", "name-2", ty, JOB_STATE_PENDING⟩
      (some false) none = .ok true := by
  cases hb : (ty == some JOB_TYPE_STREAMING) <;>
    simp [job_reached_terminal_state, hb, TERMINAL_STATES, AWAITING_STATES,
      SUCCEEDED_END_STATES, FAILED_END_STATES, JOB_STATE_DONE, JOB_STATE_RUNNING,
      JOB_STATE_PENDING, JOB_STATE_DRAINED, JOB_STATE_FAILED, JOB_STATE_CANCELLED,
      JOB_STATE_UPDATED, JOB_STATE_QUEUED, JOB_STATE_CANCELLING,
      JOB_STATE_DRAINING, JOB_STATE_STOPPED]

end Dataflow
